import Mathlib

/-!
Verification of the acquisition–patch–launch pipeline of the
`undetected-chromedriver` library (Rust sources under `src/`).

The development shallowly embeds the pure cores of the pipeline:

* the binary patcher of `chrome` in `src/lib.rs` (marker scan over the driver
  bytes, random rewriting of the 18-byte window after each `cdc_` marker);
* the patch gate around it (the `try_exists` test on `chromedriver_PATCHED`);
* the readiness-probe retry loop of `chrome`;
* the default capability augmentation of `chrome`;
* the version parsing of `get_chrome_version` and the catalogue dispatch and
  URL construction of `fetch_chromedriver` (both the `lib.rs` and the
  `google_api.rs` variant of the latter).

Byte buffers are `List Nat` (byte values), the process RNG is passed in as an
explicit oracle, and fallible steps return `Option` / `Except`.
-/

/-- Host operating system, from the closed `OS` enumeration in `src/lib.rs`. -/
inductive OS where
  | Linux
  | MacOS
  | Windows
deriving DecidableEq, Repr

/-! ## Binary patcher (`chrome` in `src/lib.rs`, lines 60–116) -/

/-- The four marker bytes the scan compares against: ASCII `cdc_`. -/
def cdcMarker : List Nat := [99, 100, 99, 95]

/-- One comparison step of the scan loop: the code builds the string from
`f[i] as char` … `f[i+3] as char` and compares it with `"cdc_"`, which is
equivalent to comparing the four byte values with `99, 100, 99, 95`. -/
def cdcAt (f : List Nat) (i : Nat) : Bool :=
  f[i]? == some 99 && f[i + 1]? == some 100 && f[i + 2]? == some 99 && f[i + 3]? == some 95

/-- The recorded match positions (`cdc_pos_list` in the code): the scan loop
runs `i` over `0 .. f.len() - 3` and pushes every `i` where the comparison
succeeds, in ascending order. -/
def cdc_pos_list (f : List Nat) : List Nat :=
  (List.range (f.length - 3)).filter (fun i => cdcAt f i)

/-- The 52-letter replacement alphabet of `random_char` in `src/lib.rs`. -/
def patchAlphabet : List Nat :=
  "abcdefghijklmnopqrstuvwxyzABCDEFGHIJKLMNOPQRSTUVWXYZ".data.map Char.toNat

/-- One call of `random_char`: indexes the alphabet with a fresh uniform draw
from `[0, 48)` (`gen_range(0..48)`), modelled as an explicit `Fin 48` input. -/
def random_char (draw : Fin 48) : Nat :=
  patchAlphabet.getD draw.val 0

/-- Writes `vals 0 .. vals (n-1)` to buffer positions
`start .. start + n - 1`, as the inner rewrite loop
`for x in i + 4..i + 22 { new[x] = random_char() }` does for one window. -/
def writeRange (vals : Nat → Nat) (start : Nat) (f : List Nat) : Nat → List Nat
  | 0 => f
  | n + 1 => (writeRange vals start f n).set (start + n) (vals n)

/-- Rewrites the 18-byte window `[i+4, i+22)` after the marker at `i`, each
byte with its own RNG draw `rnd i j`. -/
def patchWindow (rnd : Nat → Nat → Fin 48) (f : List Nat) (i : Nat) : List Nat :=
  writeRange (fun j => random_char (rnd i j)) (i + 4) f 18

/-- The outer rewrite loop `for i in cdc_pos_list`: windows are rewritten in
list order, so for overlapping windows the later write wins. -/
def applyPatches (rnd : Nat → Nat → Fin 48) : List Nat → List Nat → List Nat
  | f, [] => f
  | f, i :: rest => applyPatches rnd (patchWindow rnd f i) rest

/-- The in-memory patch step of `chrome`: scan, then rewrite. A `none` result
models a Rust panic: the loop bound `f.len() - 3` underflows when the buffer
is shorter than 3 bytes, and both the scan's window read
(`total_cdc.push_str`) and the rewrite index past the end of the buffer when
a match position `i` has `i + 22 > f.len()`. -/
def patchedChromedriverBytes (rnd : Nat → Nat → Fin 48) (f : List Nat) : Option (List Nat) :=
  if f.length < 3 then none
  else if (cdc_pos_list f).all (fun i => decide (i + 22 ≤ f.length)) then
    some (applyPatches rnd f (cdc_pos_list f))
  else none

/-- The filesystem state the patch gate of `chrome` touches: whether
`chromedriver_PATCHED` exists, the bytes of `chromedriver` (the unpatched
driver), and the bytes of `chromedriver_PATCHED` when present. -/
structure PatchGateState where
  patchedExists : Bool
  driverBytes : List Nat
  patchedBytes : Option (List Nat)
deriving DecidableEq, Repr

/-- The patch gate of `chrome` (lines 60–116): when
`try_exists(chromedriver_PATCHED)` is true it reads `chromedriver`, patches
its bytes and writes the result to `chromedriver_PATCHED`; otherwise it only
logs "Detected patched chromedriver executable!" and changes nothing. -/
def patchGate (rnd : Nat → Nat → Fin 48) (s : PatchGateState) : Option PatchGateState :=
  if s.patchedExists then
    match patchedChromedriverBytes rnd s.driverBytes with
    | some out =>
        some { patchedExists := s.patchedExists, driverBytes := s.driverBytes,
               patchedBytes := some out }
    | none => none
  else
    some s

/-- A sample driver buffer: one `cdc_` marker at position 0, followed by 22
bytes `97` (ASCII `a`), so the single 18-byte window fits the buffer. -/
def sampleDriverBytes : List Nat := cdcMarker ++ List.replicate 22 97

/-- A fixed RNG oracle: every draw is 0 (the letter `a`). -/
def rndZero : Nat → Nat → Fin 48 := fun _ _ => 0

/-- A fixed RNG oracle: every draw is 1 (the letter `b`). -/
def rndOne : Nat → Nat → Fin 48 := fun _ _ => 1

/-- The expected patch of `sampleDriverBytes` under `rndOne`: the marker
stays, window `[4, 22)` becomes 18 bytes `98` (ASCII `b`), the tail stays. -/
def patchedSampleBytes : List Nat :=
  cdcMarker ++ List.replicate 18 98 ++ List.replicate 4 97

/-- An ASCII letter byte: `a..z` or `A..Z`. -/
def isAsciiAlpha (b : Nat) : Bool :=
  (decide (97 ≤ b) && decide (b ≤ 122)) || (decide (65 ≤ b) && decide (b ≤ 90))

/-! ## Readiness probe of `chrome` (`src/lib.rs`, lines 142–154) -/

/-- The sleep between connection attempts:
`tokio::time::sleep(Duration::from_millis(250))` in the retry loop. -/
def connectRetrySleepMs : Nat := 250

/-- The error returned when the retry loop gives up. -/
def connectionError : String := "Could not connect to chromedriver"

/-- The retry loop, with the attempt outcomes supplied as an oracle
`tryOk` (whether `WebDriver::new` succeeds on attempt `k`). The loop checks
`attempt >= 20` first, then tries; each failure sleeps
`connectRetrySleepMs` and increments. The final `remaining` argument is
`20 - attempt`, making the recursion structural; `sleptMs` accumulates the
total sleep. -/
def connectAttempts (tryOk : Nat → Bool) :
    Nat → Nat → Nat → Except String Nat × Nat
  | _attempt, sleptMs, 0 => (Except.error connectionError, sleptMs)
  | attempt, sleptMs, remaining + 1 =>
    if tryOk attempt then (Except.ok attempt, sleptMs)
    else connectAttempts tryOk (attempt + 1) (sleptMs + connectRetrySleepMs) remaining

/-- The whole readiness probe: attempts start at 0 and the loop errors out
once `attempt >= 20`. On success the result carries the successful attempt
index; the second component is the total milliseconds slept. -/
def connectLoop (tryOk : Nat → Bool) : Except String Nat × Nat :=
  connectAttempts tryOk 0 0 20

/-! ## Default capability augmentation of `chrome` (`src/lib.rs`, lines 132–141) -/

/-- The capability fields `chrome` sets on `DesiredCapabilities::chrome()`. -/
structure ChromeCapabilities where
  noSandbox : Bool
  disableDevShmUsage : Bool
  chromeArgs : List String
  excludeSwitches : List String
deriving DecidableEq, Repr

/-- The user-agent Chrome argument added by `chrome` (line 138). -/
def userAgentArg : String :=
  "user-agent=Mozilla/5.0 (Windows NT 10.0; Win64; x64) AppleWebKit/537.36 (KHTML, like Gecko) Chrome/102.0.0.0 Safari/537.36"

/-- The user-agent argument the specification claims, with browser token
`Chrome/122.0.6261.111`. -/
def claimedUserAgentArg : String :=
  "user-agent=Mozilla/5.0 (Windows NT 10.0; Win64; x64) AppleWebKit/537.36 (KHTML, like Gecko) Chrome/122.0.6261.111 Safari/537.36"

/-- The augmentation `chrome` applies when no capabilities are supplied:
`set_no_sandbox`, `set_disable_dev_shm_usage`, four `add_chrome_arg` calls in
order, and `add_chrome_option("excludeSwitches", ["enable-automation"])`. -/
def defaultCapabilities : ChromeCapabilities :=
  { noSandbox := true,
    disableDevShmUsage := true,
    chromeArgs :=
      ["--disable-blink-features=AutomationControlled",
       "window-size=1920,1080",
       userAgentArg,
       "disable-infobars"],
    excludeSwitches := ["enable-automation"] }

/-! ## Browser version parsing (`get_chrome_version` in `src/lib.rs` lines
264–273 and `src/google_api.rs` lines 42–51; both parse identically) -/

/-- The digits the parser sees: `output.lines().flat_map(|line|
line.chars().filter(|&ch| ch.is_ascii_digit()))`. The split of stdout into
lines is Rust's `str::lines`; the model takes the line list as input. -/
def lineDigits (stdoutLines : List String) : List Char :=
  (stdoutLines.map (fun line => line.data.filter (fun ch => ch.isDigit))).flatten

/-- The full parse result: `take(3).collect::<String>()`, wrapped in `Ok`.
The function has no failure path of its own once stdout is available — it
returns whatever digits it found, three or fewer. -/
def chrome_version_of_lines (stdoutLines : List String) : Except String String :=
  Except.ok (((lineDigits stdoutLines).take 3).asString)

/-! ## Catalogue dispatch and download URLs (`fetch_chromedriver` in
`src/lib.rs` lines 157–218 and `src/google_api.rs` lines 54–119) -/

/-- UTF-8 code points of a version string; all versions here are ASCII, so
these are the bytes Rust's `str` comparison sees. -/
def strBytes (s : String) : List Nat :=
  s.data.map Char.toNat

/-- Byte-lexicographic strict comparison, as Rust's `Ord` for `str`
(`installed_version.as_str() >= "114"` is the negation of this). -/
def strBytesLt : List Nat → List Nat → Bool
  | [], [] => false
  | [], _ :: _ => true
  | _ :: _, [] => false
  | a :: as, b :: bs => if a < b then true else if b < a then false else strBytesLt as bs

/-- Which upstream catalogue `fetch_chromedriver` consults: the
milestone catalogue (`latest-versions-per-milestone.json`, keyed by the
installed version) or the legacy `LATEST_RELEASE_<version>` endpoint. -/
inductive CatalogRoute where
  | milestoneCatalog (lookupKey : String)
  | legacyLatestRelease (url : String)
deriving DecidableEq, Repr

/-- Base of the legacy endpoint URL (the `format!` at lines 196–202). -/
def latestReleaseUrlBase : String :=
  "https://chromedriver.storage.googleapis.com/LATEST_RELEASE_"

/-- The dispatch `if installed_version.as_str() >= "114"` of
`fetch_chromedriver` (identical in both source variants). -/
def fetchChromedriverRoute (installed_version : String) : CatalogRoute :=
  if strBytesLt (strBytes installed_version) (strBytes "114") then
    CatalogRoute.legacyLatestRelease (latestReleaseUrlBase ++ installed_version)
  else
    CatalogRoute.milestoneCatalog installed_version

/-- Milestone-catalogue download URL per `src/google_api.rs` lines 75–88:
host `storage.googleapis.com/chrome-for-testing-public`, with the resolved
full version interpolated. Note the Windows arm formats `chrome-win64.zip`,
not `chromedriver-win64.zip`. -/
def googleApiChromedriverUrl (os : OS) (version : String) : String :=
  match os with
  | OS.Linux =>
      "https://storage.googleapis.com/chrome-for-testing-public/" ++ version
        ++ "/linux64/chromedriver-linux64.zip"
  | OS.MacOS =>
      "https://storage.googleapis.com/chrome-for-testing-public/" ++ version
        ++ "/mac-arm64/chromedriver-mac-arm64.zip"
  | OS.Windows =>
      "https://storage.googleapis.com/chrome-for-testing-public/" ++ version
        ++ "/win64/chrome-win64.zip"

/-- Milestone-catalogue download URL per `src/lib.rs` lines 181–194: host
`edgedl.me.gvt1.com/edgedl/chrome/chrome-for-testing`, all three arms
fetching `chromedriver-<platform>.zip`. -/
def libChromedriverUrl (os : OS) (version : String) : String :=
  match os with
  | OS.Linux =>
      "https://edgedl.me.gvt1.com/edgedl/chrome/chrome-for-testing/" ++ version
        ++ "/linux64/chromedriver-linux64.zip"
  | OS.MacOS =>
      "https://edgedl.me.gvt1.com/edgedl/chrome/chrome-for-testing/" ++ version
        ++ "/mac-x64/chromedriver-mac-x64.zip"
  | OS.Windows =>
      "https://edgedl.me.gvt1.com/edgedl/chrome/chrome-for-testing/" ++ version
        ++ "/win64/chromedriver-win64.zip"

/-! ## Driver-process launch (`chrome` in `src/lib.rs`, lines 126–130) -/

/-- A spawned `tokio::process::Child` handle, as far as process lifetime is
concerned: whether `kill_on_drop(true)` was configured on its builder.
Tokio's default is `false`, in which case dropping the handle leaves the OS
process running. -/
structure ChildHandle where
  killOnDrop : Bool
deriving DecidableEq, Repr

/-- Whether the OS process is still alive after the handle is dropped:
dropping a tokio `Child` kills the process only when `kill_on_drop(true)`
was set. -/
def aliveAfterDrop (alive : Bool) (child : ChildHandle) : Bool :=
  alive && !child.killOnDrop

/-- The Child produced by the launcher: `Command::new(...).arg(...).spawn()?`
at lines 128–130 never calls `kill_on_drop`, so the handle carries tokio's
default `false`. -/
def spawnedChromedriverChild : ChildHandle :=
  { killOnDrop := false }

/-- The launch statement `Command::new(...).spawn()?;` ends with a semicolon:
the `Child` value is discarded, i.e. dropped, on the spot — nothing (in
particular not the `WebDriver` returned later) retains it. This is the
liveness of the spawned ChromeDriver OS process after that immediate drop,
and hence for the rest of the pipeline and beyond. -/
def processAliveAfterLaunch : Bool :=
  aliveAfterDrop true spawnedChromedriverChild

/-! ## Lemmas about the window rewriting -/

theorem random_char_isAsciiAlpha : ∀ d : Fin 48, isAsciiAlpha (random_char d) = true := by
  decide

theorem writeRange_length (vals : Nat → Nat) (start : Nat) (f : List Nat) :
    ∀ n, (writeRange vals start f n).length = f.length := by
  intro n
  induction n with
  | zero => rfl
  | succ n ih => simp [writeRange, List.length_set, ih]

theorem writeRange_getElem?_outside (vals : Nat → Nat) (start : Nat) (f : List Nat)
    (x : Nat) : ∀ n, x < start ∨ start + n ≤ x → (writeRange vals start f n)[x]? = f[x]? := by
  intro n
  induction n with
  | zero => intro _; rfl
  | succ n ih =>
    intro hx
    have hne : start + n ≠ x := by omega
    rw [writeRange, List.getElem?_set_ne hne]
    exact ih (by omega)

theorem writeRange_getElem?_inside (vals : Nat → Nat) (start : Nat) (f : List Nat)
    (x : Nat) : ∀ n, start ≤ x → x < start + n → x < f.length →
      (writeRange vals start f n)[x]? = some (vals (x - start)) := by
  intro n
  induction n with
  | zero => intro _ h2 _; omega
  | succ n ih =>
    intro h1 h2 h3
    by_cases hx : x = start + n
    · have hlt : start + n < (writeRange vals start f n).length := by
        rw [writeRange_length]; omega
      rw [writeRange, hx, List.getElem?_set_self hlt, Nat.add_sub_cancel_left]
    · rw [writeRange, List.getElem?_set_ne (by omega)]
      exact ih h1 (by omega) h3

theorem patchWindow_length (rnd : Nat → Nat → Fin 48) (f : List Nat) (i : Nat) :
    (patchWindow rnd f i).length = f.length :=
  writeRange_length _ _ _ _

theorem patchWindow_getElem?_outside (rnd : Nat → Nat → Fin 48) (f : List Nat) (i x : Nat)
    (hx : x < i + 4 ∨ i + 22 ≤ x) : (patchWindow rnd f i)[x]? = f[x]? :=
  writeRange_getElem?_outside _ _ _ _ _ (by omega)

theorem patchWindow_getElem?_inside (rnd : Nat → Nat → Fin 48) (f : List Nat) (i x : Nat)
    (h1 : i + 4 ≤ x) (h2 : x < i + 22) (h3 : x < f.length) :
    (patchWindow rnd f i)[x]? = some (random_char (rnd i (x - (i + 4)))) :=
  writeRange_getElem?_inside _ _ _ _ _ h1 (by omega) h3

theorem applyPatches_length (rnd : Nat → Nat → Fin 48) :
    ∀ ps f, (applyPatches rnd f ps).length = f.length := by
  intro ps
  induction ps with
  | nil => intro f; rfl
  | cons i rest ih =>
    intro f
    rw [applyPatches, ih, patchWindow_length]

theorem applyPatches_getElem?_outside (rnd : Nat → Nat → Fin 48) :
    ∀ ps f x, (∀ i ∈ ps, x < i + 4 ∨ i + 22 ≤ x) →
      (applyPatches rnd f ps)[x]? = f[x]? := by
  intro ps
  induction ps with
  | nil => intro f x _; rfl
  | cons i rest ih =>
    intro f x h
    rw [applyPatches, ih _ _ (fun j hj => h j (List.mem_cons_of_mem _ hj)),
      patchWindow_getElem?_outside _ _ _ _ (h i (List.mem_cons_self _ _))]

theorem applyPatches_getElem?_inside (rnd : Nat → Nat → Fin 48) :
    ∀ ps f x, (∀ i ∈ ps, i + 22 ≤ f.length) →
      (∃ i ∈ ps, i + 4 ≤ x ∧ x < i + 22) →
      ∃ b, (applyPatches rnd f ps)[x]? = some b ∧ isAsciiAlpha b = true := by
  intro ps
  induction ps with
  | nil => intro f x _ hex; simp at hex
  | cons i rest ih =>
    intro f x hlen hex
    by_cases hc : ∃ j ∈ rest, j + 4 ≤ x ∧ x < j + 22
    · rw [applyPatches]
      refine ih _ _ (fun j hj => ?_) hc
      rw [patchWindow_length]
      exact hlen j (List.mem_cons_of_mem _ hj)
    · have hi : i + 4 ≤ x ∧ x < i + 22 := by
        rcases hex with ⟨j, hj, hjx⟩
        rcases List.mem_cons.mp hj with rfl | hj'
        · exact hjx
        · exact absurd ⟨j, hj', hjx⟩ hc
      have hout : ∀ j ∈ rest, x < j + 4 ∨ j + 22 ≤ x := by
        intro j hj
        by_contra hcon
        exact hc ⟨j, hj, by omega⟩
      rw [applyPatches, applyPatches_getElem?_outside _ _ _ _ hout,
        patchWindow_getElem?_inside _ _ _ _ hi.1 hi.2
          (by have := hlen i (List.mem_cons_self _ _); omega)]
      exact ⟨_, rfl, random_char_isAsciiAlpha _⟩

/-! ## Scan characterisation -/

theorem cdcMarker_getElem?_ge_four (n : Nat) (h : 4 ≤ n) : cdcMarker[n]? = none := by
  apply List.getElem?_eq_none
  simpa [cdcMarker] using h

theorem cdcAt_eq_true_iff (f : List Nat) (i : Nat) :
    cdcAt f i = true ↔ (f.drop i).take 4 = cdcMarker := by
  constructor
  · intro h
    simp only [cdcAt, Bool.and_eq_true, beq_iff_eq] at h
    obtain ⟨⟨⟨h0, h1⟩, h2⟩, h3⟩ := h
    apply List.ext_getElem?
    intro n
    rw [List.getElem?_take, List.getElem?_drop]
    match n with
    | 0 => simpa using h0
    | 1 => simpa using h1
    | 2 => simpa using h2
    | 3 => simpa using h3
    | n + 4 => rw [if_neg (by omega), cdcMarker_getElem?_ge_four _ (by omega)]
  · intro h
    have hk : ∀ k, k < 4 → f[i + k]? = cdcMarker[k]? := by
      intro k hk
      have := congrArg (fun l => l[k]?) h
      simpa [List.getElem?_take, List.getElem?_drop, hk] using this
    have h0 := hk 0 (by omega)
    have h1 := hk 1 (by omega)
    have h2 := hk 2 (by omega)
    have h3 := hk 3 (by omega)
    simp only [cdcMarker, Nat.add_zero] at h0 h1 h2 h3
    simp [cdcAt, h0, h1, h2, h3]

/-! ## Claim theorems -/

/-- Claim C1 (code bug): the gate around the binary patcher is inverted.
When `chromedriver_PATCHED` already exists, `chrome` re-reads `chromedriver`,
re-patches it and overwrites `chromedriver_PATCHED` (first conjunct: the
state is not returned unchanged); when `chromedriver_PATCHED` does not
exist, the patcher is skipped and nothing is written (second conjunct), even
though that branch logs "Detected patched chromedriver executable!" and the
pipeline goes on to spawn the then-nonexistent patched binary. -/
theorem patch_gate_inverted :
    patchGate rndZero
        { patchedExists := true, driverBytes := sampleDriverBytes, patchedBytes := some [0] }
      ≠ some { patchedExists := true, driverBytes := sampleDriverBytes,
               patchedBytes := some [0] } ∧
    patchGate rndZero
        { patchedExists := false, driverBytes := sampleDriverBytes, patchedBytes := none }
      = some { patchedExists := false, driverBytes := sampleDriverBytes,
               patchedBytes := none } := by
  decide

/-- Claim C2: whenever the patcher completes on input `B` with output `B'`,
the lengths agree, every byte outside all windows `[i+4, i+22)` over recorded
match positions `i` is unchanged, and every byte inside such a window is an
ASCII letter in `a..zA..Z`. -/
theorem patched_bytes_frame_effect (rnd : Nat → Nat → Fin 48) (f out : List Nat)
    (h : patchedChromedriverBytes rnd f = some out) :
    out.length = f.length ∧
    (∀ x : Nat, (∀ i ∈ cdc_pos_list f, x < i + 4 ∨ i + 22 ≤ x) → out[x]? = f[x]?) ∧
    (∀ i ∈ cdc_pos_list f, ∀ x : Nat, i + 4 ≤ x → x < i + 22 →
      ∃ b, out[x]? = some b ∧ isAsciiAlpha b = true) := by
  unfold patchedChromedriverBytes at h
  by_cases hl : f.length < 3
  · rw [if_pos hl] at h
    exact absurd h (by simp)
  rw [if_neg hl] at h
  by_cases hall : (cdc_pos_list f).all (fun i => decide (i + 22 ≤ f.length)) = true
  · rw [if_pos hall] at h
    injection h with h
    subst h
    have hfit : ∀ i ∈ cdc_pos_list f, i + 22 ≤ f.length := by
      intro i hi
      simpa using List.all_eq_true.mp hall i hi
    exact ⟨applyPatches_length _ _ _,
      fun x hx => applyPatches_getElem?_outside _ _ _ _ hx,
      fun i hi x h1 h2 => applyPatches_getElem?_inside _ _ _ _ hfit ⟨i, hi, h1, h2⟩⟩
  · rw [if_neg hall] at h
    exact absurd h (by simp)

/-- Witness for C2 at a concrete input: the sample driver patched with the
all-ones RNG yields `patchedSampleBytes`, and the frame properties hold of
that pair. -/
theorem patched_bytes_frame_effect_witness :
    patchedChromedriverBytes rndOne sampleDriverBytes = some patchedSampleBytes ∧
    (patchedSampleBytes.length = sampleDriverBytes.length ∧
     (∀ x : Nat, (∀ i ∈ cdc_pos_list sampleDriverBytes, x < i + 4 ∨ i + 22 ≤ x) →
        patchedSampleBytes[x]? = sampleDriverBytes[x]?) ∧
     (∀ i ∈ cdc_pos_list sampleDriverBytes, ∀ x : Nat, i + 4 ≤ x → x < i + 22 →
        ∃ b, patchedSampleBytes[x]? = some b ∧ isAsciiAlpha b = true)) :=
  ⟨by decide,
   patched_bytes_frame_effect rndOne sampleDriverBytes patchedSampleBytes (by decide)⟩

/-- Claim C3: the marker scan is complete and exact. For any buffer long
enough for the scan to run (`3 ≤ |B|`, shorter buffers abort, see C10), a
position `i` occurs in the recorded list exactly once when `i` lies in
`[0, |B| - 3)` and the four bytes `[i, i+4)` equal `cdc_`, and zero times
otherwise. -/
theorem cdc_scan_complete_exact (f : List Nat) (_h3 : 3 ≤ f.length) (i : Nat) :
    (cdc_pos_list f).count i =
      if i < f.length - 3 ∧ (f.drop i).take 4 = cdcMarker then 1 else 0 := by
  unfold cdc_pos_list
  by_cases hc : cdcAt f i = true
  · rw [List.count_filter hc]
    by_cases hi : i < f.length - 3
    · rw [if_pos ⟨hi, (cdcAt_eq_true_iff f i).mp hc⟩]
      exact List.count_eq_one_of_mem (List.nodup_range _) (List.mem_range.mpr hi)
    · rw [if_neg (fun hcon => hi hcon.1)]
      exact List.count_eq_zero.mpr (fun hmem => hi (List.mem_range.mp hmem))
  · rw [if_neg (fun hcon => hc ((cdcAt_eq_true_iff f i).mpr hcon.2))]
    exact List.count_eq_zero.mpr (fun hmem => hc (List.mem_filter.mp hmem).2)

/-- Witness for C3 at a concrete input: position 0 of the sample driver. -/
theorem cdc_scan_complete_exact_witness :
    (cdc_pos_list sampleDriverBytes).count 0 =
      if 0 < sampleDriverBytes.length - 3 ∧ (sampleDriverBytes.drop 0).take 4 = cdcMarker
      then 1 else 0 :=
  cdc_scan_complete_exact sampleDriverBytes (by decide) 0

/-- Claim C10: the patch routine is not total over arbitrary byte buffers.
It aborts (models a Rust panic) when the buffer is shorter than 3 bytes (the
loop bound `f.len() - 3` underflows) and when a recorded match position `i`
has `i + 22 > |B|` (the window read and rewrite index past the end); away
from those two edges it completes. -/
theorem patcher_totality_boundary :
    (∀ (rnd : Nat → Nat → Fin 48) (f : List Nat), f.length < 3 →
      patchedChromedriverBytes rnd f = none) ∧
    (∀ (rnd : Nat → Nat → Fin 48) (f : List Nat) (i : Nat), i ∈ cdc_pos_list f →
      f.length < i + 22 → patchedChromedriverBytes rnd f = none) ∧
    (∀ (rnd : Nat → Nat → Fin 48) (f : List Nat), 3 ≤ f.length →
      (∀ i ∈ cdc_pos_list f, i + 22 ≤ f.length) →
      ∃ out, patchedChromedriverBytes rnd f = some out) := by
  refine ⟨fun rnd f h => ?_, fun rnd f i hi hlen => ?_, fun rnd f h3 hfit => ?_⟩
  · rw [patchedChromedriverBytes, if_pos h]
  · rw [patchedChromedriverBytes]
    by_cases hl : f.length < 3
    · rw [if_pos hl]
    · have hall : ¬ (cdc_pos_list f).all (fun j => decide (j + 22 ≤ f.length)) = true := by
        intro hcon
        have := List.all_eq_true.mp hcon i hi
        simp at this
        omega
      rw [if_neg hl, if_neg hall]
  · rw [patchedChromedriverBytes, if_neg (Nat.not_lt.mpr h3),
      if_pos (List.all_eq_true.mpr fun i hi => by simpa using hfit i hi)]
    exact ⟨_, rfl⟩

/-- Witness for C10 at concrete inputs: a 1-byte buffer aborts, the bare
4-byte marker aborts (its window overruns), and the sample driver (whose
window fits) completes. -/
theorem patcher_totality_boundary_witness :
    patchedChromedriverBytes rndZero [0] = none ∧
    patchedChromedriverBytes rndZero cdcMarker = none ∧
    ∃ out, patchedChromedriverBytes rndZero sampleDriverBytes = some out :=
  ⟨patcher_totality_boundary.1 rndZero [0] (by decide),
   patcher_totality_boundary.2.1 rndZero cdcMarker 0 (by decide) (by decide),
   patcher_totality_boundary.2.2 rndZero sampleDriverBytes (by decide) (by decide)⟩

/-! ## Driver-process lifetime -/

/-- Claim C4 (code bug): the launcher at `src/lib.rs` lines 128–130 spawns
ChromeDriver with `Command::new(...).spawn()?;` — the `Child` handle is
discarded by the statement itself, `kill_on_drop` is never configured (tokio
default `false`), and the `WebDriver` returned to the caller holds no
reference to it. Dropping the handle therefore does not kill the OS process:
it is owned by nothing and outlives every handle, contradicting the claimed
kill-on-drop / last-share-terminates ownership. -/
theorem spawned_process_not_killed_on_drop :
    spawnedChromedriverChild.killOnDrop = false ∧
    processAliveAfterLaunch = true :=
  ⟨rfl, rfl⟩

/-! ## Readiness probe -/

theorem connectAttempts_all_fail (tryOk : Nat → Bool) :
    ∀ (remaining attempt sleptMs : Nat),
      (∀ k, attempt ≤ k → k < attempt + remaining → tryOk k = false) →
      connectAttempts tryOk attempt sleptMs remaining
        = (Except.error connectionError, sleptMs + remaining * connectRetrySleepMs) := by
  intro remaining
  induction remaining with
  | zero =>
    intro attempt sleptMs _
    simp [connectAttempts]
  | succ n ih =>
    intro attempt sleptMs h
    have hfail : tryOk attempt = false := h attempt le_rfl (by omega)
    rw [connectAttempts, hfail]
    simp only [Bool.false_eq_true, if_false]
    rw [ih (attempt + 1) (sleptMs + connectRetrySleepMs)
      (fun k hk1 hk2 => h k (by omega) (by omega))]
    congr 1
    simp [connectRetrySleepMs]
    omega

/-- Claim C5 (counterexample): the back-off between readiness attempts is
250 ms, not the claimed 50 ms; with every attempt failing the probe sleeps
20 × 250 = 5000 ms in total before giving up. -/
theorem readiness_backoff_not_50ms :
    connectRetrySleepMs = 250 ∧ connectRetrySleepMs ≠ 50 ∧
    connectLoop (fun _ => false) = (Except.error connectionError, 5000) :=
  ⟨rfl, by decide, rfl⟩

/-- Claim C5 (amended): the readiness probe retries with a 250 ms back-off
between attempts and gives up after 20 unsuccessful attempts, failing with
the driver-unreachable error `"Could not connect to chromedriver"`. -/
theorem readiness_probe_gives_up_after_20 (tryOk : Nat → Bool)
    (h : ∀ k, k < 20 → tryOk k = false) :
    connectLoop tryOk = (Except.error connectionError, 20 * connectRetrySleepMs) := by
  rw [connectLoop,
    connectAttempts_all_fail tryOk 20 0 0 (fun k _ hk2 => h k (by omega))]
  simp

/-- Witness for C5 at a concrete oracle: every attempt fails. -/
theorem readiness_probe_gives_up_after_20_witness :
    connectLoop (fun _ => false)
      = (Except.error connectionError, 20 * connectRetrySleepMs) :=
  readiness_probe_gives_up_after_20 (fun _ => false) (fun _ _ => rfl)

/-! ## Browser version parsing -/

/-- Claim C6 (counterexample): on stdout whose lines contain fewer than
three ASCII digits, the version reader does not fail with a version-probe
error — it returns success with the short (here empty) digit string. -/
theorem version_reader_no_failure_on_few_digits :
    chrome_version_of_lines ["Google Chrome"] = Except.ok "" := rfl

/-- Claim C6 (amended): the reader concatenates all ASCII digits across the
stdout lines in order and returns the first three as the version; when the
lines contain fewer than three digits in total it still succeeds, returning
the whole (possibly empty) digit string rather than failing. -/
theorem version_reader_short_digits_ok (stdoutLines : List String) :
    chrome_version_of_lines stdoutLines
      = Except.ok ((lineDigits stdoutLines).take 3).asString ∧
    ((lineDigits stdoutLines).length < 3 →
      chrome_version_of_lines stdoutLines
        = Except.ok (lineDigits stdoutLines).asString) := by
  refine ⟨rfl, fun h => ?_⟩
  rw [chrome_version_of_lines, List.take_of_length_le (by omega)]

/-- Witness for C6 at a concrete stdout with a single digit. -/
theorem version_reader_short_digits_ok_witness :
    (lineDigits ["Google Chrome 1"]).length < 3 ∧
    chrome_version_of_lines ["Google Chrome 1"]
      = Except.ok (lineDigits ["Google Chrome 1"]).asString :=
  ⟨by decide, (version_reader_short_digits_ok ["Google Chrome 1"]).2 (by decide)⟩

/-! ## Catalogue dispatch -/

theorem strBytesLt_iff_lex :
    ∀ xs ys : List Nat, strBytesLt xs ys = true ↔ List.Lex (· < ·) xs ys := by
  intro xs
  induction xs with
  | nil =>
    intro ys
    cases ys with
    | nil =>
      simp only [strBytesLt, Bool.false_eq_true, false_iff]
      exact List.Lex.not_nil_right _ _
    | cons b bs =>
      simp only [strBytesLt, true_iff]
      exact List.Lex.nil
  | cons a as ih =>
    intro ys
    cases ys with
    | nil =>
      simp only [strBytesLt, Bool.false_eq_true, false_iff]
      exact List.Lex.not_nil_right _ _
    | cons b bs =>
      rw [strBytesLt]
      constructor
      · intro h
        by_cases hab : a < b
        · exact List.Lex.rel hab
        · rw [if_neg hab] at h
          by_cases hba : b < a
          · rw [if_pos hba] at h
            exact absurd h (by simp)
          · have heq : a = b := by omega
            subst heq
            rw [if_neg hba] at h
            exact List.Lex.cons ((ih bs).mp h)
      · intro h
        cases h with
        | rel h1 => rw [if_pos h1]
        | cons h1 =>
          rw [if_neg (lt_irrefl a), if_neg (lt_irrefl a)]
          exact (ih bs).mpr h1

/-- Claim C7: catalogue dispatch is decided by byte-lexicographic comparison
of the three-digit version string against `"114"`: a version not
lexicographically below `"114"` takes the milestone catalogue, and a version
lexicographically below it takes the legacy `LATEST_RELEASE_<version>`
endpoint. -/
theorem catalogue_dispatch_lexicographic (v : String) :
    (¬ List.Lex (· < ·) (strBytes v) (strBytes "114") →
      fetchChromedriverRoute v = CatalogRoute.milestoneCatalog v) ∧
    (List.Lex (· < ·) (strBytes v) (strBytes "114") →
      fetchChromedriverRoute v
        = CatalogRoute.legacyLatestRelease (latestReleaseUrlBase ++ v)) := by
  constructor
  · intro h
    have hb : strBytesLt (strBytes v) (strBytes "114") = false :=
      Bool.eq_false_iff.mpr (fun hcon => h ((strBytesLt_iff_lex _ _).mp hcon))
    rw [fetchChromedriverRoute, hb]
    simp
  · intro h
    rw [fetchChromedriverRoute, (strBytesLt_iff_lex _ _).mpr h]
    simp

/-- Witness for C7 at concrete versions: `"114"` goes to the milestone
catalogue, `"113"` to the legacy endpoint. -/
theorem catalogue_dispatch_lexicographic_witness :
    fetchChromedriverRoute "114" = CatalogRoute.milestoneCatalog "114" ∧
    fetchChromedriverRoute "113"
      = CatalogRoute.legacyLatestRelease (latestReleaseUrlBase ++ "113") :=
  ⟨(catalogue_dispatch_lexicographic "114").1
      (fun h => by
        have hb := (strBytesLt_iff_lex _ _).mpr h
        revert hb
        decide),
   (catalogue_dispatch_lexicographic "113").2
      ((strBytesLt_iff_lex _ _).mp (by decide))⟩

/-! ## Milestone download URLs -/

/-- Claim C8 (code bug): on the milestone path, `src/google_api.rs` formats
URLs on the claimed `storage.googleapis.com/chrome-for-testing-public` host
and the Linux and macOS arms fetch `chromedriver-<platform>.zip`, but the
Windows arm fetches `chrome-win64.zip` — the Chrome browser archive, not the
`chromedriver-win64.zip` the claim states and the function needs. -/
theorem milestone_windows_url_is_chrome_zip :
    googleApiChromedriverUrl OS.Linux "122.0.6261.111"
      = "https://storage.googleapis.com/chrome-for-testing-public/122.0.6261.111/linux64/chromedriver-linux64.zip" ∧
    googleApiChromedriverUrl OS.MacOS "122.0.6261.111"
      = "https://storage.googleapis.com/chrome-for-testing-public/122.0.6261.111/mac-arm64/chromedriver-mac-arm64.zip" ∧
    googleApiChromedriverUrl OS.Windows "122.0.6261.111"
      = "https://storage.googleapis.com/chrome-for-testing-public/122.0.6261.111/win64/chrome-win64.zip" ∧
    googleApiChromedriverUrl OS.Windows "122.0.6261.111"
      ≠ "https://storage.googleapis.com/chrome-for-testing-public/122.0.6261.111/win64/chromedriver-win64.zip" := by
  refine ⟨rfl, rfl, rfl, ?_⟩
  decide

/-! ## Default capabilities -/

/-- Claim C9 (counterexample): the user-agent argument the claim lists, with
browser token `Chrome/122.0.6261.111`, is not among the Chrome arguments the
code adds. -/
theorem claimed_user_agent_not_in_args :
    claimedUserAgentArg ∉ defaultCapabilities.chromeArgs := by
  decide

/-- Claim C9 (amended): when no capabilities are supplied, the default
bundle is augmented with exactly the no-sandbox and disable-dev-shm flags,
the four Chrome arguments (automation-controlled blink feature disabled,
window size 1920×1080, the user agent with browser token `Chrome/102.0.0.0`,
and `disable-infobars`), and `excludeSwitches = ["enable-automation"]`. -/
theorem default_capabilities_augmentation :
    defaultCapabilities.noSandbox = true ∧
    defaultCapabilities.disableDevShmUsage = true ∧
    defaultCapabilities.chromeArgs =
      ["--disable-blink-features=AutomationControlled", "window-size=1920,1080",
       userAgentArg, "disable-infobars"] ∧
    defaultCapabilities.excludeSwitches = ["enable-automation"] ∧
    userAgentArg ≠ claimedUserAgentArg :=
  ⟨rfl, rfl, rfl, rfl, by decide⟩
